import Mathlib

/-!
Verification development for the dockyard agent: a shallow embedding of the
exec/logs streaming core (src/agent/main.py, src/agent/grpc_server/servicer.py,
src/agent/services/exec_service.py, src/agent/services/logs_service.py).
Bytes are modelled as natural numbers, byte strings as lists of naturals.
-/

/-- Big-endian 32-bit value of four bytes, as computed by
int.from_bytes(data[4:8], big) in src/agent/main.py. -/
def beToNat (b0 b1 b2 b3 : Nat) : Nat :=
  ((b0 * 256 + b1) * 256 + b2) * 256 + b3

/-- The four big-endian bytes of a 32-bit value (used to build test frames). -/
def beBytes4 (n : Nat) : List Nat :=
  [n / 16777216 % 256, n / 65536 % 256, n / 256 % 256, n % 256]

/-- A complete runtime frame: tag byte, three reserved zero bytes, big-endian
32-bit payload length, then the payload. -/
def mkFrame (tag : Nat) (payload : List Nat) : List Nat :=
  tag :: 0 :: 0 :: 0 :: (beBytes4 payload.length ++ payload)

/-- Demultiplexing step of handle_output in src/agent/main.py (lines 295-310),
applied to one buffer received from the exec socket.  In interactive mode the
buffer is forwarded verbatim as stdout.  Otherwise, when the buffer holds at
least 8 bytes, byte 0 is read as the tag and bytes 4-7 as the big-endian
length; the single emitted chunk is data[8:8+size] when the size fits and
data[8:] otherwise, labelled stdout when the tag equals 1 and stderr for any
other tag.  Shorter buffers are forwarded whole as stdout. -/
def demuxExec (interactive : Bool) (data : List Nat) : List (String × List Nat) :=
  if interactive then [("stdout", data)]
  else if 8 ≤ data.length then
    let tag := data.headD 0
    let size := beToNat (data.getD 4 0) (data.getD 5 0) (data.getD 6 0) (data.getD 7 0)
    let payload := if size ≤ data.length - 8 then (data.drop 8).take size else data.drop 8
    [(if tag = 1 then "stdout" else "stderr", payload)]
  else [("stdout", data)]

/-- Demultiplexing and classification step of GetLogs in src/agent/main.py
(lines 499-529), applied to one log line.  Only when both streams are
requested and the line holds at least 8 bytes with a tag of 1 or 2 and a
fitting declared length is the header stripped; every other shape is
returned whole, labelled stdout (or stderr when only stderr was asked). -/
def getLogsDemux (stdoutF stderrF : Bool) (line : List Nat) : List Nat × String :=
  if stdoutF = true ∧ stderrF = true ∧ 8 ≤ line.length then
    let tag := line.headD 0
    if tag = 1 ∨ tag = 2 then
      let size := beToNat (line.getD 4 0) (line.getD 5 0) (line.getD 6 0) (line.getD 7 0)
      if size ≤ line.length - 8 then
        ((line.drop 8).take size, if tag = 1 then "stdout" else "stderr")
      else (line, "stdout")
    else (line, "stdout")
  else (line, if stdoutF then "stdout" else "stderr")

/-- Decimal digit test on a byte value. -/
def isDigitB (b : Nat) : Bool := decide (48 ≤ b ∧ b ≤ 57)

/-- Whitespace test on a byte value, matching the regex class backslash-s. -/
def isSpaceB (b : Nat) : Bool := b == 32 || b == 9 || b == 10 || b == 13 || b == 11 || b == 12

/-- Tail of the timestamp regex of GetLogs in src/agent/main.py (line 539):
a nonempty whitespace run, then the captured remainder, which may contain no
newline except a single trailing one (absorbed by the end anchor). -/
def tsTailOpt (w : List Nat) : Option (List Nat) :=
  let ws := w.takeWhile isSpaceB
  if ws = [] then none
  else
    let r := w.drop ws.length
    let c := if r.getLast? = some 10 then r.dropLast else r
    if c.contains 10 then none else some c

/-- Byte-level model of the timestamp regex of GetLogs in src/agent/main.py
(line 539): four digits, dash, two digits, dash, two digits, letter T, three
colon-separated two-digit groups, a dot, at least one fraction digit, letter Z,
whitespace, then the remainder.  Returns the timestamp bytes and the remainder.
The source decodes the payload as UTF-8 with replacement and re-encodes the
captured group; on the byte sequences of interest these coincide. -/
def tsMatchBytes (bs : List Nat) : Option (List Nat × List Nat) :=
  if 21 ≤ bs.length then
    if isDigitB (bs.getD 0 0) ∧ isDigitB (bs.getD 1 0) ∧ isDigitB (bs.getD 2 0) ∧
       isDigitB (bs.getD 3 0) ∧ bs.getD 4 0 = 45 ∧ isDigitB (bs.getD 5 0) ∧
       isDigitB (bs.getD 6 0) ∧ bs.getD 7 0 = 45 ∧ isDigitB (bs.getD 8 0) ∧
       isDigitB (bs.getD 9 0) ∧ bs.getD 10 0 = 84 ∧ isDigitB (bs.getD 11 0) ∧
       isDigitB (bs.getD 12 0) ∧ bs.getD 13 0 = 58 ∧ isDigitB (bs.getD 14 0) ∧
       isDigitB (bs.getD 15 0) ∧ bs.getD 16 0 = 58 ∧ isDigitB (bs.getD 17 0) ∧
       isDigitB (bs.getD 18 0) ∧ bs.getD 19 0 = 46 then
      let frac := (bs.drop 20).takeWhile isDigitB
      if frac ≠ [] ∧ bs.getD (20 + frac.length) 0 = 90 then
        match tsTailOpt (bs.drop (20 + frac.length + 1)) with
        | some content => some (bs.take (20 + frac.length + 1), content)
        | none => none
      else none
    else none
  else none

/-- Timestamp-extraction stage of GetLogs in src/agent/main.py (lines 531-545):
when timestamps were requested and the payload is nonempty and matches the
timestamp pattern, the timestamp is split off the payload. -/
def tsStage (timestamps : Bool) (payload : List Nat) : List Nat × List Nat :=
  if timestamps = true ∧ payload ≠ [] then
    match tsMatchBytes payload with
    | some (ts, content) => (ts, content)
    | none => ([], payload)
  else ([], payload)

/-- One log entry as sent to the client (proto LogEntry): payload bytes,
stream label, timestamp bytes. -/
structure LogEntryM where
  data : List Nat
  streamType : String
  timestamp : List Nat
deriving DecidableEq, Repr

/-- Per-line processing of GetLogs in src/agent/main.py (lines 495-554): empty
lines are skipped, every other line is demultiplexed, timestamp-stripped and
emitted as one entry. -/
def mainLogLine (stdoutF stderrF timestamps : Bool) (line : List Nat) : Option LogEntryM :=
  if line = [] then none
  else
    let pc := getLogsDemux stdoutF stderrF line
    let tp := tsStage timestamps pc.1
    some ⟨tp.2, pc.2, tp.1⟩

/-- Decimal digit test on a character. -/
def chDigit (c : Char) : Bool := decide (48 ≤ c.toNat ∧ c.toNat ≤ 57)

/-- Value of a digit character. -/
def chVal (c : Char) : Nat := c.toNat - 48

/-- Value of a digit string. -/
def digitsToNat (cs : List Char) : Nat := cs.foldl (fun a c => a * 10 + chVal c) 0

/-- Model of the Python int constructor on a string: optional surrounding
spaces, an optional single sign, then a nonempty digit run; anything else
raises, modelled as none. -/
def pythonIntOpt (cs : List Char) : Option Int :=
  let cs := (((cs.dropWhile (fun c => c = ' ')).reverse.dropWhile (fun c => c = ' ')).reverse)
  match cs with
  | [] => none
  | c :: rest =>
    if c = '-' then
      if rest ≠ [] ∧ rest.all chDigit then some (-(digitsToNat rest : Int)) else none
    else if c = '+' then
      if rest ≠ [] ∧ rest.all chDigit then some (digitsToNat rest : Int) else none
    else if (c :: rest).all chDigit then some (digitsToNat (c :: rest) : Int) else none

/-- Leap-year test of the proleptic Gregorian calendar. -/
def isLeap (y : Int) : Bool := y % 4 = 0 ∧ (y % 100 ≠ 0 ∨ y % 400 = 0)

/-- Number of days of a month. -/
def daysInMonth (y m : Int) : Int :=
  if m = 2 then (if isLeap y then 29 else 28)
  else if m = 4 ∨ m = 6 ∨ m = 9 ∨ m = 11 then 30 else 31

/-- Days since the Unix epoch of a civil date (standard era-based algorithm). -/
def daysFromCivil (y m d : Int) : Int :=
  let y2 := y - (if m ≤ 2 then 1 else 0)
  let era := (if 0 ≤ y2 then y2 else y2 - 399) / 400
  let yoe := y2 - era * 400
  let mp := (m + 9) % 12
  let doy := (153 * mp + 2) / 5 + d - 1
  let doe := yoe * 365 + yoe / 4 - yoe / 100 + doy
  era * 146097 + doe - 719468

/-- Two digits as a number, when both characters are digits. -/
def parseTwo (a b : Char) : Option Nat :=
  if chDigit a ∧ chDigit b then some (10 * chVal a + chVal b) else none

/-- Fractional-seconds suffix of the ISO form: three or six digits.  The value
is dropped because the model counts whole seconds. -/
def parseFrac (cs : List Char) : Option (List Char) :=
  match cs with
  | a :: b :: c :: rest =>
    if chDigit a ∧ chDigit b ∧ chDigit c then
      match rest with
      | d :: e :: f :: rest2 =>
        if chDigit d ∧ chDigit e ∧ chDigit f then some rest2 else some rest
      | _ => some rest
    else none
  | _ => none

/-- Timezone-offset suffix of the ISO form: empty, or a sign followed by
HH:MM and optionally :SS.  Returns the offset in seconds. -/
def parseOffset (cs : List Char) : Option Int :=
  match cs with
  | [] => some 0
  | s :: h1 :: h2 :: c1 :: m1 :: m2 :: rest =>
    if (s = '+' ∨ s = '-') ∧ c1 = ':' then
      match parseTwo h1 h2, parseTwo m1 m2 with
      | some hh, some mm =>
        let base : Int := hh * 3600 + mm * 60
        match rest with
        | [] => some (if s = '-' then -base else base)
        | ':' :: s1 :: s2 :: rest2 =>
          match parseTwo s1 s2 with
          | some ss =>
            if rest2 = [] then some (if s = '-' then -(base + ss) else base + ss) else none
          | none => none
        | _ => none
      | _, _ => none
    else none
  | _ => none

/-- Time-of-day part of the ISO form: HH:MM, optionally :SS and a fraction,
then an optional offset.  Returns seconds of day minus the offset. -/
def parseTime (cs : List Char) : Option Int :=
  match cs with
  | h1 :: h2 :: c1 :: m1 :: m2 :: rest =>
    if c1 = ':' then
      match parseTwo h1 h2, parseTwo m1 m2 with
      | some hh, some mm =>
        if hh ≤ 23 ∧ mm ≤ 59 then
          match rest with
          | ':' :: s1 :: s2 :: rest2 =>
            match parseTwo s1 s2 with
            | some ss =>
              if ss ≤ 59 then
                match rest2 with
                | '.' :: rest3 =>
                  match parseFrac rest3 with
                  | some rest4 =>
                    (parseOffset rest4).map (fun off => (hh * 3600 + mm * 60 + ss : Int) - off)
                  | none => none
                | _ =>
                  (parseOffset rest2).map (fun off => (hh * 3600 + mm * 60 + ss : Int) - off)
              else none
            | none => none
          | _ => (parseOffset rest).map (fun off => (hh * 3600 + mm * 60 : Int) - off)
        else none
      | _, _ => none
    else none
  | _ => none

/-- Model of datetime.fromisoformat on a character list: a YYYY-MM-DD date with
validated ranges, optionally a single separator character and a time part.
Returns epoch seconds; an unparseable string raises, modelled as none. -/
def fromisoOpt (cs : List Char) : Option Int :=
  match cs with
  | y1 :: y2 :: y3 :: y4 :: s1 :: m1 :: m2 :: s2 :: d1 :: d2 :: rest =>
    if chDigit y1 ∧ chDigit y2 ∧ chDigit y3 ∧ chDigit y4 ∧ s1 = '-' ∧ s2 = '-' ∧
       chDigit m1 ∧ chDigit m2 ∧ chDigit d1 ∧ chDigit d2 then
      let y : Int := (1000 * chVal y1 + 100 * chVal y2 + 10 * chVal y3 + chVal y4 : Nat)
      let mo : Int := (10 * chVal m1 + chVal m2 : Nat)
      let da : Int := (10 * chVal d1 + chVal d2 : Nat)
      if 1 ≤ mo ∧ mo ≤ 12 ∧ 1 ≤ da ∧ da ≤ daysInMonth y mo then
        match rest with
        | [] => some (daysFromCivil y mo da * 86400)
        | _sep :: timecs => (parseTime timecs).map (fun t => daysFromCivil y mo da * 86400 + t)
      else none
    else none
  | _ => none

/-- Replacement of every letter Z by the six characters of +00:00, as done by
replace before the ISO parse in src/agent/services/logs_service.py line 107. -/
def replaceZ (cs : List Char) : List Char :=
  cs.flatMap (fun c => if c = 'Z' then ['+', '0', '0', ':', '0', '0'] else [c])

/-- Model of LogsService parse since in src/agent/services/logs_service.py
(lines 82-110): a suffix of s, m, h or d selects a relative duration whose
numeric prefix is subtracted from the current time; otherwise the string is
parsed as an ISO timestamp; any parse failure yields none.  Time-points are
epoch seconds. -/
def parseSince (now : Int) (cs : List Char) : Option Int :=
  match cs.getLast? with
  | none => fromisoOpt (replaceZ cs)
  | some u =>
    if u = 's' then (pythonIntOpt cs.dropLast).map (fun n => now - n)
    else if u = 'm' then (pythonIntOpt cs.dropLast).map (fun n => now - n * 60)
    else if u = 'h' then (pythonIntOpt cs.dropLast).map (fun n => now - n * 3600)
    else if u = 'd' then (pythonIntOpt cs.dropLast).map (fun n => now - n * 86400)
    else fromisoOpt (replaceZ cs)

/-- Model of the since handling of GetLogs in src/agent/main.py (lines
453-471): the anchored regex accepts one or more digits followed by one of
s, m, h, d; a match subtracts the duration from the current time; any other
string leaves the lower bound unset. -/
def mainParseSince (now : Int) (cs : List Char) : Option Int :=
  match cs.getLast? with
  | none => none
  | some u =>
    if (u = 's' ∨ u = 'm' ∨ u = 'h' ∨ u = 'd') ∧ cs.dropLast ≠ [] ∧ cs.dropLast.all chDigit then
      some (now - (digitsToNat cs.dropLast : Int) *
        (if u = 's' then 1 else if u = 'm' then 60 else if u = 'h' then 3600 else 86400))
    else none

/-- Start message of an exec call (proto ExecStart). -/
structure ExecStartM where
  containerIdentifier : String
  command : List String
  interactive : Bool
  user : String
  workingDir : String
  environment : List (String × String)
deriving DecidableEq, Repr

/-- Inbound exec message: the oneof of start and input variants. -/
inductive ExecReqM where
  | start (cfg : ExecStartM)
  | input (data : List Nat)
deriving DecidableEq, Repr

/-- Outbound exec status (proto ExecStatus); unset proto3 fields default to
false and zero. -/
structure ExecStatusM where
  success : Bool
  message : String
  exitCode : Int
  finished : Bool
deriving DecidableEq, Repr

/-- Outbound exec message: the oneof of output and status variants. -/
inductive ExecRespM where
  | output (data : List Nat) (streamType : String)
  | status (st : ExecStatusM)
deriving DecidableEq, Repr

/-- Truthiness-based disjunction of Python on byte strings. -/
def pyOr (a b : List Nat) : List Nat := if a = [] then b else a

/-- One dictionary yielded by ExecService execute command: stdout bytes,
stderr bytes, and the exit code, which is none for plain output. -/
structure ExecYield where
  stdout : List Nat
  stderr : List Nat
  exitCode : Option Int
deriving DecidableEq, Repr

/-- Outcome of one non-interactive run against the runtime: the demuxed
chunk pairs streamed by exec run, ended by an exit code, or cut short by an
exception carrying the error text. -/
inductive SimpleRun where
  | ok (chunks : List (Option (List Nat) × Option (List Nat))) (exitCode : Int)
  | fail (chunksBefore : List (Option (List Nat) × Option (List Nat))) (err : List Nat)
deriving DecidableEq, Repr

/-- Outcome of one interactive run against the runtime: the byte buffers read
from the exec socket, ended by an inspected exit code or an exception. -/
inductive InterRun where
  | ok (recvs : List (List Nat)) (exitCode : Int)
  | fail (recvsBefore : List (List Nat)) (err : List Nat)
deriving DecidableEq, Repr

/-- Behavior of the runtime during one exec call: container lookup result and
the run each path would observe. -/
structure ExecScenario where
  lookup : Except (List Nat) Unit
  simple : SimpleRun
  inter : InterRun

/-- The output dictionary built from one demuxed chunk pair in
ExecService execute simple (src/agent/services/exec_service.py lines
110-115): missing sides become empty bytes. -/
def yOut (p : Option (List Nat) × Option (List Nat)) : ExecYield :=
  ⟨p.1.getD [], p.2.getD [], none⟩

/-- Model of ExecService execute command (src/agent/services/exec_service.py
lines 25-264): container lookup failure yields one dictionary with the error
text and exit code -1; the interactive path (taken when the interactive flag
is set and an input iterator was given) forwards each socket read verbatim as
stdout and writes every nonempty input buffer to the socket; the simple path
streams the demuxed chunk pairs; every path ends with exactly one dictionary
carrying an exit code, -1 after an exception.  The pair returned is the
yielded dictionaries and the bytes written to the process stdin. -/
def executeCommand (interactive : Bool) (inputIter : Option (List (List Nat)))
    (scn : ExecScenario) : List ExecYield × List Nat :=
  match scn.lookup with
  | Except.error e => ([⟨[], e, some (-1)⟩], [])
  | Except.ok _ =>
    if interactive = true ∧ inputIter.isSome then
      let inputs := inputIter.getD []
      let written := (inputs.filter (fun d => !d.isEmpty)).flatten
      match scn.inter with
      | InterRun.ok recvs c =>
        ((recvs.takeWhile (fun d => !d.isEmpty)).map (fun d => ⟨d, [], none⟩) ++
          [⟨[], [], some c⟩], written)
      | InterRun.fail recvs e =>
        ((recvs.takeWhile (fun d => !d.isEmpty)).map (fun d => ⟨d, [], none⟩) ++
          [⟨[], e, some (-1)⟩], written)
    else
      match scn.simple with
      | SimpleRun.ok chunks c => (chunks.map yOut ++ [⟨[], [], some c⟩], [])
      | SimpleRun.fail chunks e => (chunks.map yOut ++ [⟨[], e, some (-1)⟩], [])

/-- Mapping of one service dictionary to the outbound message in the servicer
loop of ExecContainer (src/agent/grpc_server/servicer.py lines 146-163): a set
exit code becomes a status with success true and finished true; otherwise an
output message whose data is stdout if nonempty else stderr. -/
def execMapResp (y : ExecYield) : ExecRespM :=
  match y.exitCode with
  | some c => ExecRespM.status ⟨true, "Command completed", c, true⟩
  | none => ExecRespM.output (pyOr y.stdout y.stderr)
      (if y.stdout.isEmpty then "stderr" else "stdout")

/-- The input data of an inbound message, used by the input generator of the
servicer (src/agent/grpc_server/servicer.py lines 128-134). -/
def execInputData : ExecReqM → Option (List Nat)
  | ExecReqM.input d => some d
  | ExecReqM.start _ => none

/-- Model of ExecContainer in src/agent/grpc_server/servicer.py (lines
101-173): an empty inbound stream or a first message without the start
variant yields one failure status with finished true; otherwise the service
dictionaries are mapped to outbound messages, and the input iterator is
passed only in interactive mode.  The pair returned is the outbound messages
and the bytes written to the process stdin. -/
def servicerExecResps (reqs : List ExecReqM) (scn : ExecScenario) :
    List ExecRespM × List Nat :=
  match reqs with
  | [] => ([ExecRespM.status ⟨false, "Exec failed", 0, true⟩], [])
  | ExecReqM.input _ :: _ =>
    ([ExecRespM.status ⟨false, "First request must contain exec start configuration", 0, true⟩],
      [])
  | ExecReqM.start cfg :: rest =>
    let r := executeCommand cfg.interactive
      (if cfg.interactive then some (rest.filterMap execInputData) else none) scn
    (r.1.map execMapResp, r.2)

/-- A message is terminal when it is a status with the finished flag set. -/
def isFinishedResp : ExecRespM → Bool
  | ExecRespM.status st => st.finished
  | ExecRespM.output _ _ => false

/-- Behavior of the runtime during one exec call of the legacy handler:
container lookup, the reported container state, the buffers read from the
exec socket, and the final inspect result. -/
structure MainScenario where
  lookup : Except Unit Unit
  containerStatus : String
  recvs : List (List Nat)
  inspectExit : Except Unit Int

/-- Model of ExecContainer in src/agent/main.py (lines 167-400): a missing or
malformed first message, an empty command, an unknown container or a
container that is not running each yield one failure status whose finished
flag is left unset (false); a started execution yields an initial success
status, then the demultiplexed nonempty chunks of each socket read, then one
final status with finished true (success when the exit inspect worked).  The
input thread (lines 268-283) forwards every nonempty input buffer to the exec
socket regardless of the interactive flag; the pair returned is the outbound
messages and those written bytes. -/
def mainExecResps (reqs : List ExecReqM) (scn : MainScenario) :
    List ExecRespM × List Nat :=
  match reqs with
  | [] => ([ExecRespM.status ⟨false, "Execution failed", 0, false⟩], [])
  | ExecReqM.input _ :: _ =>
    ([ExecRespM.status ⟨false, "First request must be ExecStart", 0, false⟩], [])
  | ExecReqM.start cfg :: rest =>
    if cfg.command = [] then
      ([ExecRespM.status ⟨false, "Command is required", 0, false⟩], [])
    else
      match scn.lookup with
      | Except.error _ => ([ExecRespM.status ⟨false, "Container not found", 0, false⟩], [])
      | Except.ok _ =>
        if scn.containerStatus ≠ "running" then
          ([ExecRespM.status ⟨false, "Container is not running", 0, false⟩], [])
        else
          let written :=
            ((rest.filterMap execInputData).filter (fun d => !d.isEmpty)).flatten
          let chunks :=
            (scn.recvs.takeWhile (fun d => !d.isEmpty)).flatMap (demuxExec cfg.interactive)
          let outs := (chunks.filter (fun c => !c.2.isEmpty)).map
            (fun c => ExecRespM.output c.2 c.1)
          let fin := match scn.inspectExit with
            | Except.ok c => ExecRespM.status ⟨true, "Execution completed", c, true⟩
            | Except.error _ =>
              ExecRespM.status ⟨false, "Failed to get execution result", 0, true⟩
          (ExecRespM.status ⟨true, "Execution started successfully", 0, false⟩ :: outs ++ [fin],
            written)

/-- An outbound message either is a status or carries nonempty data. -/
def respOutputNonempty : ExecRespM → Bool
  | ExecRespM.output d _ => !d.isEmpty
  | ExecRespM.status _ => true

/-- Parameters of one container.logs invocation against the runtime. -/
structure LogsCall where
  stdoutF : Bool
  stderrF : Bool
  stream : Bool
  follow : Bool
  tailAll : Bool
  tail : Nat
  since : Option Int
  timestamps : Bool

/-- Behavior of the runtime during one logs call: container lookup result,
the lines produced when iterating a streamed call, and the single byte blob
returned by an unstreamed call, both as functions of the call parameters. -/
structure LogsScenario where
  lookup : Except (List Nat) Unit
  chunks : LogsCall → List (List Nat)
  blob : LogsCall → List Nat

/-- One logs request (proto LogsRequest); proto3 booleans default to false,
tail to zero and since to the empty string. -/
structure LogsReqM where
  containerIdentifier : String
  follow : Bool
  tail : Nat
  since : List Char
  timestamps : Bool
  stdoutF : Bool
  stderrF : Bool

/-- Outbound logs message: the oneof of log entry and status variants. -/
inductive LogsRespM where
  | log (e : LogEntryM)
  | status (success : Bool) (message : String) (finished : Bool)
deriving DecidableEq, Repr

/-- Model of GetLogs in src/agent/main.py (lines 418-584): a both-false
stream filter is normalized to both streams; an unknown container yields one
failure status (finished unset); otherwise an initial success status, one
entry per nonempty demultiplexed line, and, when not following, a final
finished status.  The runtime is always called in stream mode with tail equal
to all when the requested tail is zero. -/
def mainGetLogs (req : LogsReqM) (scn : LogsScenario) (now : Int) : List LogsRespM :=
  let stdoutF := if req.stdoutF = false ∧ req.stderrF = false then true else req.stdoutF
  let stderrF := if req.stdoutF = false ∧ req.stderrF = false then true else req.stderrF
  match scn.lookup with
  | Except.error _ => [LogsRespM.status false "Container not found" false]
  | Except.ok _ =>
    let sinceT := if req.since = [] then none else mainParseSince now req.since
    let call : LogsCall :=
      ⟨stdoutF, stderrF, true, req.follow, req.tail = 0, req.tail, sinceT, req.timestamps⟩
    LogsRespM.status true "Streaming logs" false ::
      ((scn.chunks call).filterMap (mainLogLine stdoutF stderrF req.timestamps)).map
        LogsRespM.log ++
      (if req.follow then [] else [LogsRespM.status true "All logs retrieved" true])

/-- Model of LogsService get logs (src/agent/services/logs_service.py lines
24-80): a failed container lookup yields the error text as a data chunk; a
followed call yields each runtime line; an unfollowed call yields the whole
runtime result as one chunk.  The stream filter flags are passed to the
runtime unchanged. -/
def getLogsService (follow : Bool) (tail : Option Nat) (since : Option (List Char))
    (timestamps stdoutF stderrF : Bool) (scn : LogsScenario) (now : Int) :
    List (List Nat) :=
  match scn.lookup with
  | Except.error e => [e]
  | Except.ok _ =>
    let sinceT := match since with
      | none => none
      | some s => parseSince now s
    let call : LogsCall :=
      ⟨stdoutF, stderrF, follow, follow, tail.isNone, tail.getD 0, sinceT, timestamps⟩
    if follow then scn.chunks call else [scn.blob call]

/-- Model of GetLogs in src/agent/grpc_server/servicer.py (lines 175-220):
every data chunk of the service is wrapped as a log entry whose stream type
is the literal stdout, and a finished status is appended when not following. -/
def servicerGetLogs (req : LogsReqM) (scn : LogsScenario) (now : Int) : List LogsRespM :=
  (getLogsService req.follow (if req.tail = 0 then none else some req.tail)
      (if req.since = [] then none else some req.since)
      req.timestamps req.stdoutF req.stderrF scn now).map
    (fun d => LogsRespM.log ⟨d, "stdout", []⟩) ++
  (if req.follow then [] else [LogsRespM.status true "Logs completed" true])

/-- The data bytes of the log entries of an outbound sequence, in order. -/
def logDatas (rs : List LogsRespM) : List (List Nat) :=
  rs.filterMap (fun r => match r with
    | LogsRespM.log e => some e.data
    | LogsRespM.status _ _ _ => none)

/-- A fixed non-interactive start message. -/
def cfg0 : ExecStartM := ⟨"box", ["sh"], false, "", "", []⟩

/-- A runtime scenario with a known container and trivial runs. -/
def scn0 : ExecScenario := ⟨Except.ok (), SimpleRun.ok [] 0, InterRun.ok [] 0⟩

/-- A runtime scenario whose container lookup raises. -/
def scn4 : ExecScenario := ⟨Except.error [101], SimpleRun.ok [] 0, InterRun.ok [] 0⟩

/-- A legacy-handler scenario with a running container and a clean finish. -/
def scnMain0 : MainScenario := ⟨Except.ok (), "running", [], Except.ok 0⟩

/-- A logs scenario producing one line that is a valid frame header with a
declared length of zero. -/
def scn9 : LogsScenario :=
  ⟨Except.ok (), fun _ => [[1, 0, 0, 0, 0, 0, 0, 0]], fun _ => []⟩

/-- A logs request for both streams without follow, tail, since or
timestamps. -/
def req9 : LogsReqM := ⟨"box", false, 0, [], false, true, true⟩

/-- A logs scenario whose runtime produces a line only when both streams are
requested, and nothing otherwise. -/
def scnC5 : LogsScenario :=
  ⟨Except.ok (),
    fun c => if c.stdoutF && c.stderrF then [[104, 105]] else [],
    fun _ => []⟩

/-- A followed logs request with both stream flags unset. -/
def reqFF : LogsReqM := ⟨"box", true, 0, [], false, false, false⟩

/-- A followed logs request with both stream flags set. -/
def reqTT : LogsReqM := ⟨"box", true, 0, [], false, true, true⟩

/-- A followed logs request selecting only stdout. -/
def req10 : LogsReqM := ⟨"box", true, 0, [], false, true, false⟩

/-- A logs scenario producing one fixed raw line. -/
def scn10 : LogsScenario := ⟨Except.ok (), fun _ => [[7]], fun _ => [7]⟩

/-- Decoding the four big-endian bytes of a 32-bit value gives it back. -/
theorem beToNat_beBytes (n : Nat) (h : n < 4294967296) :
    beToNat (n / 16777216 % 256) (n / 65536 % 256) (n / 256 % 256) (n % 256) = n := by
  unfold beToNat
  omega

/-- A framed buffer in explicit head-normal form. -/
theorem mkFrame_append (t : Nat) (p rest : List Nat) :
    mkFrame t p ++ rest =
      t :: 0 :: 0 :: 0 :: (p.length / 16777216 % 256) :: (p.length / 65536 % 256) ::
        (p.length / 256 % 256) :: (p.length % 256) :: (p ++ rest) := by
  simp [mkFrame, beBytes4]

/-- C1.  The exec demultiplexer parses only the head frame of a buffer: on a
well-formed frame followed by arbitrary further bytes it emits exactly one
chunk, the head payload with the declared kind, and never advances to the
remainder; the GetLogs demultiplexer behaves the same way on its line.  This
is the amended form of the claim: neither code place loops over the buffer,
so the payloads of subsequent concatenated frames are discarded rather than
emitted. -/
theorem c1_first_frame_only (t : Nat) (p rest : List Nat)
    (ht : t = 1 ∨ t = 2) (hp : p.length < 4294967296) :
    demuxExec false (mkFrame t p ++ rest) =
      [(if t = 1 then "stdout" else "stderr", p)] ∧
    getLogsDemux true true (mkFrame t p ++ rest) =
      (p, if t = 1 then "stdout" else "stderr") := by
  have hbe := beToNat_beBytes p.length hp
  rw [mkFrame_append]
  constructor
  · unfold demuxExec
    simp only [Bool.false_eq_true, if_false, List.length_cons, List.length_append,
      List.headD_cons, List.getD_cons_zero, List.getD_cons_succ,
      List.drop_succ_cons, List.drop_zero]
    rw [hbe]
    rw [if_pos (show 8 ≤ p.length + rest.length + 1 + 1 + 1 + 1 + 1 + 1 + 1 + 1 by omega)]
    rw [if_pos
      (show p.length ≤ p.length + rest.length + 1 + 1 + 1 + 1 + 1 + 1 + 1 + 1 - 8 by omega)]
    simp [List.take_left]
  · unfold getLogsDemux
    simp only [List.length_cons, List.length_append, List.headD_cons, List.getD_cons_zero,
      List.getD_cons_succ, List.drop_succ_cons, List.drop_zero]
    rw [hbe]
    rw [if_pos (show (True ∧ True ∧
      8 ≤ p.length + rest.length + 1 + 1 + 1 + 1 + 1 + 1 + 1 + 1) from
        ⟨trivial, trivial, by omega⟩)]
    rw [if_pos ht]
    rw [if_pos
      (show p.length ≤ p.length + rest.length + 1 + 1 + 1 + 1 + 1 + 1 + 1 + 1 - 8 by omega)]
    simp [List.take_left]

/-- C1 witness: a single stderr frame with payload byte 66 followed by
nothing is demultiplexed to exactly that payload by both code places. -/
theorem c1_witness :
    ((2 = 1 ∨ 2 = 2) ∧ ([66] : List Nat).length < 4294967296) ∧
    (demuxExec false (mkFrame 2 [66] ++ []) =
        [(if 2 = 1 then "stdout" else "stderr", [66])] ∧
      getLogsDemux true true (mkFrame 2 [66] ++ []) =
        ([66], if 2 = 1 then "stdout" else "stderr")) :=
  ⟨⟨Or.inr rfl, by decide⟩, c1_first_frame_only 2 [66] [] (Or.inr rfl) (by decide)⟩

/-- C1 counterexample: a buffer that concatenates a complete stdout frame
with payload 65 and a complete stderr frame with payload 66 yields only the
first payload; the claimed two-chunk result is not produced. -/
theorem c1_counterexample :
    demuxExec false (mkFrame 1 [65] ++ mkFrame 2 [66]) = [("stdout", [65])] ∧
    demuxExec false (mkFrame 1 [65] ++ mkFrame 2 [66]) ≠
      [("stdout", [65]), ("stderr", [66])] := by
  constructor
  · decide
  · decide

/-- C3.  Amended fail-open behavior.  The GetLogs demultiplexer fails open as
claimed: a line of 8 or more bytes whose tag is not 1 or 2, or whose declared
length exceeds the remaining bytes, is emitted whole as one stdout chunk.
The exec demultiplexer fails open only for buffers shorter than 8 bytes; a
buffer of 8 or more bytes is always parsed as a frame, the 8 header bytes are
stripped, the payload is truncated to the available bytes, and any tag other
than 1 is labelled stderr rather than stdout. -/
theorem c3_fail_open :
    (∀ line : List Nat, 8 ≤ line.length →
      (¬(line.headD 0 = 1 ∨ line.headD 0 = 2) ∨
        line.length - 8 <
          beToNat (line.getD 4 0) (line.getD 5 0) (line.getD 6 0) (line.getD 7 0)) →
      getLogsDemux true true line = (line, "stdout")) ∧
    (∀ d : List Nat, d.length < 8 → demuxExec false d = [("stdout", d)]) ∧
    (∀ d : List Nat, 8 ≤ d.length →
      demuxExec false d =
        [(if d.headD 0 = 1 then "stdout" else "stderr",
          (d.drop 8).take
            (min (beToNat (d.getD 4 0) (d.getD 5 0) (d.getD 6 0) (d.getD 7 0))
              (d.length - 8)))]) := by
  refine ⟨?_, ?_, ?_⟩
  · intro line h8 hbad
    unfold getLogsDemux
    dsimp only
    rw [if_pos (show (true = true ∧ true = true ∧ 8 ≤ line.length) from ⟨rfl, rfl, h8⟩)]
    rcases hbad with hno | hsz
    · rw [if_neg hno]
    · by_cases htag : line.headD 0 = 1 ∨ line.headD 0 = 2
      · rw [if_pos htag, if_neg (by omega)]
      · rw [if_neg htag]
  · intro d h
    unfold demuxExec
    simp only [Bool.false_eq_true, if_false]
    rw [if_neg (by omega)]
  · intro d h8
    unfold demuxExec
    simp only [Bool.false_eq_true, if_false]
    rw [if_pos h8]
    by_cases hle : beToNat (d.getD 4 0) (d.getD 5 0) (d.getD 6 0) (d.getD 7 0) ≤ d.length - 8
    · rw [if_pos hle, Nat.min_eq_left hle]
    · rw [if_neg hle, Nat.min_eq_right (by omega),
        show d.length - 8 = (d.drop 8).length by rw [List.length_drop], List.take_length]

/-- C3 witness: a 9-byte line with tag zero is emitted whole as stdout by
GetLogs; a 3-byte buffer is emitted whole as stdout by the exec path; the
same 9-byte buffer through the exec path is parsed as a frame instead. -/
theorem c3_witness :
    (8 ≤ ([0, 0, 0, 0, 0, 0, 0, 1, 65] : List Nat).length ∧
      ¬(([0, 0, 0, 0, 0, 0, 0, 1, 65] : List Nat).headD 0 = 1 ∨
        ([0, 0, 0, 0, 0, 0, 0, 1, 65] : List Nat).headD 0 = 2) ∧
      ([1, 2, 3] : List Nat).length < 8) ∧
    (getLogsDemux true true [0, 0, 0, 0, 0, 0, 0, 1, 65] =
        ([0, 0, 0, 0, 0, 0, 0, 1, 65], "stdout") ∧
      demuxExec false [1, 2, 3] = [("stdout", [1, 2, 3])]) :=
  ⟨⟨by decide, by decide, by decide⟩,
    c3_fail_open.1 [0, 0, 0, 0, 0, 0, 0, 1, 65] (by decide) (Or.inl (by decide)),
    c3_fail_open.2.1 [1, 2, 3] (by decide)⟩

/-- C3 counterexample: the exec demultiplexer, given a 9-byte buffer whose
tag byte is 0 (not a recognized frame header), emits the parsed payload
labelled stderr, not the entire buffer as one stdout chunk as claimed. -/
theorem c3_counterexample :
    demuxExec false [0, 0, 0, 0, 0, 0, 0, 1, 65] = [("stderr", [65])] ∧
    demuxExec false [0, 0, 0, 0, 0, 0, 0, 1, 65] ≠
      [("stdout", [0, 0, 0, 0, 0, 0, 0, 1, 65])] := by
  constructor
  · decide
  · decide

/-- C7.  In interactive mode demultiplexing is skipped: the legacy handler
forwards every received buffer verbatim as one stdout chunk with no header
parsing, and the interactive path of the service yields every socket read
verbatim on the stdout side of its output dictionaries, followed only by the
exit dictionary. -/
theorem c7_interactive_verbatim :
    (∀ d : List Nat, demuxExec true d = [("stdout", d)]) ∧
    (∀ (recvs : List (List Nat)) (c : Int) (inputs : List (List Nat)) (smp : SimpleRun),
      (executeCommand true (some inputs) ⟨Except.ok (), smp, InterRun.ok recvs c⟩).1 =
        (recvs.takeWhile (fun d => !d.isEmpty)).map
            (fun d => ({ stdout := d, stderr := [], exitCode := none } : ExecYield)) ++
          [⟨[], [], some c⟩]) := by
  constructor
  · intro d
    rfl
  · intro recvs c inputs smp
    rfl

/-- C8.  Since parsing: in both the service parser and the legacy regex
parser, 1h gives the current time minus one hour, 30m minus thirty minutes,
10s minus ten seconds, 7d minus seven days, and the unparseable string abc
gives no lower bound rather than an error. -/
theorem c8_since_parsing : ∀ now : Int,
    parseSince now ['1', 'h'] = some (now - 3600) ∧
    parseSince now ['3', '0', 'm'] = some (now - 1800) ∧
    parseSince now ['1', '0', 's'] = some (now - 10) ∧
    parseSince now ['7', 'd'] = some (now - 604800) ∧
    parseSince now ['a', 'b', 'c'] = none ∧
    mainParseSince now ['1', 'h'] = some (now - 3600) ∧
    mainParseSince now ['3', '0', 'm'] = some (now - 1800) ∧
    mainParseSince now ['1', '0', 's'] = some (now - 10) ∧
    mainParseSince now ['7', 'd'] = some (now - 604800) ∧
    mainParseSince now ['a', 'b', 'c'] = none := by
  intro now
  exact ⟨rfl, rfl, rfl, rfl, rfl, rfl, rfl, rfl, rfl, rfl⟩

/-- Every run of the service exec generator yields some plain-output
dictionaries followed by exactly one dictionary carrying an exit code. -/
theorem executeCommand_shape (interactive : Bool) (ii : Option (List (List Nat)))
    (scn : ExecScenario) :
    ∃ ys er c, (executeCommand interactive ii scn).1 = ys ++ [⟨[], er, some c⟩] ∧
      ∀ y ∈ ys, y.exitCode = none := by
  unfold executeCommand
  rcases scn with ⟨lk, smp, intr⟩
  rcases lk with e | u
  · exact ⟨[], e, -1, rfl, by simp⟩
  · dsimp only
    by_cases hi : interactive = true ∧ (ii.isSome : Prop)
    · rw [if_pos hi]
      rcases intr with ⟨recvs, c⟩ | ⟨recvs, e⟩
      · refine ⟨_, [], c, rfl, ?_⟩
        intro y hy
        obtain ⟨d, _, rfl⟩ := List.mem_map.1 hy
        rfl
      · refine ⟨_, e, -1, rfl, ?_⟩
        intro y hy
        obtain ⟨d, _, rfl⟩ := List.mem_map.1 hy
        rfl
    · rw [if_neg hi]
      rcases smp with ⟨chunks, c⟩ | ⟨chunks, e⟩
      · refine ⟨_, [], c, rfl, ?_⟩
        intro y hy
        obtain ⟨pq, _, rfl⟩ := List.mem_map.1 hy
        rfl
      · refine ⟨_, e, -1, rfl, ?_⟩
        intro y hy
        obtain ⟨pq, _, rfl⟩ := List.mem_map.1 hy
        rfl

/-- C2.  Amended terminal-status property, proved for the layered servicer:
every outbound sequence of its exec handler ends with exactly one status
whose finished flag is set, and no earlier message is terminal.  The legacy
handler violates the claim on its early failure paths, where the single
status sent leaves finished unset. -/
theorem c2_exactly_one_finished : ∀ (reqs : List ExecReqM) (scn : ExecScenario),
    ∃ pre st, (servicerExecResps reqs scn).1 = pre ++ [ExecRespM.status st] ∧
      st.finished = true ∧ ∀ r ∈ pre, isFinishedResp r = false := by
  intro reqs scn
  match reqs with
  | [] =>
    exact ⟨[], ⟨false, "Exec failed", 0, true⟩, rfl, rfl, by simp⟩
  | ExecReqM.input d :: rest =>
    exact ⟨[], ⟨false, "First request must contain exec start configuration", 0, true⟩,
      rfl, rfl, by simp⟩
  | ExecReqM.start cfg :: rest =>
    obtain ⟨ys, er, c, h1, h2⟩ := executeCommand_shape cfg.interactive
      (if cfg.interactive then some (rest.filterMap execInputData) else none) scn
    refine ⟨ys.map execMapResp, ⟨true, "Command completed", c, true⟩, ?_, rfl, ?_⟩
    · show (servicerExecResps (ExecReqM.start cfg :: rest) scn).1 = _
      unfold servicerExecResps
      dsimp only
      rw [h1]
      simp [execMapResp]
    · intro r hr
      obtain ⟨y, hy, rfl⟩ := List.mem_map.1 hr
      have hz := h2 y hy
      simp [execMapResp, hz, isFinishedResp]

/-- C2 witness: the terminal-status shape at the empty inbound stream and a
trivial scenario. -/
theorem c2_witness :
    ∃ pre st, (servicerExecResps [] scn0).1 = pre ++ [ExecRespM.status st] ∧
      st.finished = true ∧ ∀ r ∈ pre, isFinishedResp r = false :=
  c2_exactly_one_finished [] scn0

/-- C2 counterexample: the legacy handler answers a malformed first message
(an input variant) with a single status whose finished flag is false, so no
message of the call carries finished true, refuting the claim that every
path ends with exactly one finished status. -/
theorem c2_counterexample :
    (mainExecResps [ExecReqM.input [104]] scnMain0).1 =
      [ExecRespM.status ⟨false, "First request must be ExecStart", 0, false⟩] ∧
    (mainExecResps [ExecReqM.input [104]] scnMain0).1.filter isFinishedResp = [] := by
  constructor
  · decide
  · decide

/-- C4.  Amended synthesized-exit property: when the container lookup raises,
or the non-interactive run fails mid-stream, the service yields exit code -1
and the servicer delivers it as the terminal finished status; but that status
carries success true, not the claimed Failed state, because the servicer
marks every exit status successful. -/
theorem c4_minus_one_exit : ∀ (cfg : ExecStartM) (rest : List ExecReqM)
    (scn : ExecScenario) (e : List Nat)
    (chunks : List (Option (List Nat) × Option (List Nat))) (er : List Nat),
    (scn.lookup = Except.error e →
      (servicerExecResps (ExecReqM.start cfg :: rest) scn).1 =
        [ExecRespM.status ⟨true, "Command completed", -1, true⟩]) ∧
    (scn.lookup = Except.ok () → cfg.interactive = false →
      scn.simple = SimpleRun.fail chunks er →
      (servicerExecResps (ExecReqM.start cfg :: rest) scn).1 =
        chunks.map (fun pq => execMapResp (yOut pq)) ++
          [ExecRespM.status ⟨true, "Command completed", -1, true⟩]) := by
  intro cfg rest scn e chunks er
  constructor
  · intro hl
    simp [servicerExecResps, executeCommand, hl, execMapResp]
  · intro hl hi hs
    simp [servicerExecResps, executeCommand, hl, hi, hs, execMapResp]

/-- C4 witness: at a lookup-failure scenario the outbound sequence is the
single terminal status with exit code -1. -/
theorem c4_witness :
    scn4.lookup = Except.error [101] ∧
    (servicerExecResps [ExecReqM.start cfg0] scn4).1 =
      [ExecRespM.status ⟨true, "Command completed", -1, true⟩] :=
  ⟨rfl, (c4_minus_one_exit cfg0 [] scn4 [101] [] []).1 rfl⟩

/-- C4 counterexample: a failed lookup is delivered as a terminal status with
exit code -1 whose success flag is true, refuting the claim that such an
error is surfaced as a Failed (success false) status and never as a
successful completion. -/
theorem c4_counterexample :
    (servicerExecResps [ExecReqM.start cfg0] scn4).1 =
      [ExecRespM.status ⟨true, "Command completed", -1, true⟩] ∧
    ∃ st : ExecStatusM,
      ExecRespM.status st ∈ (servicerExecResps [ExecReqM.start cfg0] scn4).1 ∧
      st.exitCode = -1 ∧ st.finished = true ∧ st.success = true :=
  ⟨by decide, ⟨true, "Command completed", -1, true⟩, by decide, rfl, rfl, rfl⟩

/-- C6.  Amended non-interactive input property, proved for the layered
servicer: when the start message has the interactive flag unset, the whole
outbound behavior is independent of any later input messages and no byte is
ever written to the process stdin.  The legacy handler violates the claim:
its input thread forwards client input to the exec socket regardless of the
flag. -/
theorem c6_noninteractive_input_ignored : ∀ (cfg : ExecStartM)
    (rest rest2 : List ExecReqM) (scn : ExecScenario), cfg.interactive = false →
    servicerExecResps (ExecReqM.start cfg :: rest) scn =
      servicerExecResps (ExecReqM.start cfg :: rest2) scn ∧
    (servicerExecResps (ExecReqM.start cfg :: rest) scn).2 = [] := by
  intro cfg rest rest2 scn hi
  constructor
  · simp [servicerExecResps, hi]
  · rcases scn with ⟨lk, smp, intr⟩
    rcases lk with e | u
    · simp [servicerExecResps, executeCommand, hi]
    · rcases smp with ⟨chunks, c⟩ | ⟨chunks, e⟩ <;>
        simp [servicerExecResps, executeCommand, hi]

/-- C6 witness: with a non-interactive start, adding an input message changes
nothing and nothing is written to stdin. -/
theorem c6_witness :
    cfg0.interactive = false ∧
    (servicerExecResps [ExecReqM.start cfg0, ExecReqM.input [104, 105]] scn0 =
        servicerExecResps [ExecReqM.start cfg0] scn0 ∧
      (servicerExecResps [ExecReqM.start cfg0, ExecReqM.input [104, 105]] scn0).2 = []) :=
  ⟨rfl, c6_noninteractive_input_ignored cfg0 [ExecReqM.input [104, 105]] [] scn0 rfl⟩

/-- C6 counterexample: the legacy handler writes the input bytes 104, 105 to
the exec socket although the start message was non-interactive, refuting the
claim that no client input bytes are ever written to the process stdin. -/
theorem c6_counterexample :
    cfg0.interactive = false ∧
    (mainExecResps [ExecReqM.start cfg0, ExecReqM.input [104, 105]] scnMain0).2 =
      [104, 105] := by
  constructor
  · rfl
  · decide

/-- C9.  Amended empty-chunk property: the legacy exec handler never sends an
output message with empty data (the streaming loop drops empty payloads),
and the logs handler skips empty log lines.  The claim fails elsewhere: the
logs handler does forward an empty payload for a valid zero-length frame. -/
theorem c9_no_empty_exec_output :
    (∀ (reqs : List ExecReqM) (scn : MainScenario),
      (mainExecResps reqs scn).1.all respOutputNonempty = true) ∧
    (∀ so se ts : Bool, mainLogLine so se ts [] = none) := by
  constructor
  · intro reqs scn
    match reqs with
    | [] => rfl
    | ExecReqM.input d :: rest => rfl
    | ExecReqM.start cfg :: rest =>
      unfold mainExecResps
      dsimp only
      split
      · rfl
      · split
        · rfl
        · split
          · rfl
          · simp only [List.all_cons, List.all_append, Bool.and_eq_true]
            refine ⟨⟨rfl, ?_⟩, ?_⟩
            · rw [List.all_eq_true]
              intro r hr
              obtain ⟨ch, hch, rfl⟩ := List.mem_map.1 hr
              have hne := (List.mem_filter.1 hch).2
              simpa [respOutputNonempty] using hne
            · rcases hex : scn.inspectExit with e | c <;> simp [hex, respOutputNonempty]
  · intro so se ts
    rfl

/-- C9 counterexample: a log line that is a valid frame header declaring a
zero-length payload is delivered to the client as a log entry with empty
data, refuting the claim that every delivered log message has a payload of
length at least 1. -/
theorem c9_counterexample :
    LogsRespM.log ⟨[], "stdout", []⟩ ∈ mainGetLogs req9 scn9 0 := by decide

/-- C5.  Amended empty-filter normalization: the legacy logs handler
normalizes a both-false stream filter to both-true, so those two requests
behave identically there for every runtime behavior; the layered path does
no such normalization and passes the flags through to the runtime unchanged,
so there the claim fails. -/
theorem c5_main_normalizes : ∀ (ci : String) (follow : Bool) (tail : Nat)
    (since : List Char) (timestamps : Bool) (scn : LogsScenario) (now : Int),
    mainGetLogs ⟨ci, follow, tail, since, timestamps, false, false⟩ scn now =
      mainGetLogs ⟨ci, follow, tail, since, timestamps, true, true⟩ scn now := by
  intro ci follow tail since timestamps scn now
  rfl

/-- C5 counterexample: through the layered servicer, against a runtime that
produces a line only when both streams are enabled, the request with both
flags false behaves differently from the request with both flags true,
refuting the claimed equivalence for that path. -/
theorem c5_counterexample :
    servicerGetLogs reqFF scnC5 0 ≠ servicerGetLogs reqTT scnC5 0 := by decide

/-- C10.  In the layered logs path, every log entry sent to the client
carries the stream label stdout, and the delivered data chunks are exactly
the byte chunks the service yielded, forwarded verbatim with no
demultiplexing applied. -/
theorem c10_layered_logs_stdout : ∀ (req : LogsReqM) (scn : LogsScenario) (now : Int),
    (∀ e : LogEntryM, LogsRespM.log e ∈ servicerGetLogs req scn now →
      e.streamType = "stdout") ∧
    logDatas (servicerGetLogs req scn now) =
      getLogsService req.follow (if req.tail = 0 then none else some req.tail)
        (if req.since = [] then none else some req.since)
        req.timestamps req.stdoutF req.stderrF scn now := by
  intro req scn now
  constructor
  · intro e he
    unfold servicerGetLogs at he
    rcases List.mem_append.1 he with h | h
    · obtain ⟨d, _, hd⟩ := List.mem_map.1 h
      injection hd with h2
      cases h2
      rfl
    · by_cases hf : req.follow = true
      · simp [hf] at h
      · simp [hf] at h
  · unfold servicerGetLogs logDatas
    rw [List.filterMap_append]
    have h2 : (if req.follow = true then ([] : List LogsRespM)
        else [LogsRespM.status true "Logs completed" true]).filterMap
        (fun r => match r with
          | LogsRespM.log e => some e.data
          | LogsRespM.status _ _ _ => none) = [] := by
      by_cases hf : req.follow = true <;> simp [hf]
    rw [h2, List.append_nil, List.filterMap_map]
    exact List.filterMap_some _

/-- C10 witness: at a concrete followed request and one-chunk runtime, the
delivered entry is labelled stdout. -/
theorem c10_witness :
    (LogsRespM.log ⟨[7], "stdout", []⟩ ∈ servicerGetLogs req10 scn10 0) ∧
    (⟨[7], "stdout", []⟩ : LogEntryM).streamType = "stdout" :=
  ⟨by decide, (c10_layered_logs_stdout req10 scn10 0).1 ⟨[7], "stdout", []⟩ (by decide)⟩
